import Mathlib

/-!
# Verification of AdsDataSqlSync against its specification

Shallow embedding of the parts of the repository that the claims concern:

* the metrics engine (`row_view_to_metrics`), modelled from the spec because
  `adsdata/metrics.py` is not among the available source files (only its unit
  tests are);
* the forwarding functions of `run.py` (`metrics_to_master_pipeline`,
  `nonbib_to_master_pipeline`, and the delta variants), translated from
  `src/run.py`;
* the command dispatch of `main` in `src/run.py`.

Machine integers do not occur (Python integers are unbounded); floating-point
normalisation values are modelled over `ℚ`.
-/

namespace AdsDataSqlSync

/-! ## Metrics engine (spec-modelled)

`adsdata/metrics.py` is not available; the definitions in this section are
modelled from the spec, §3 (MetricsRecord), §4.3 (MetricsEngine) and the
glossary, and cross-checked against `src/tests/tests/metrics_unittests.py`. -/

/-- Modelled from the spec: "publication_year is parsed from the first four
characters of the bibcode" (§4.3); the data model guarantees those characters
are a 4-digit year (§3, Bibcode). -/
def publicationYear (bibcode : String) : Nat :=
  ((bibcode.take 4).toNat?).getD 0

/-- Modelled from the spec: "`age` = max(1, current_calendar_year −
publication_year(bibcode) + 1)" (§4.3). The current calendar year is a
parameter of the model (the code reads the wall clock). -/
def age (currentYear : Int) (bibcode : String) : Int :=
  max 1 (currentYear - (publicationYear bibcode : Int) + 1)

/-- The data obtained for one citing bibcode from the row-view lookup:
"fetch c's RowViewRecord to obtain (refereed_c, reference_num_c, bibcode_c)"
(spec §4.3); the unit test mocks exactly this triple per row. -/
structure CitedRecord where
  refereed : Bool
  reference_num : Nat
  bibcode : String
  deriving DecidableEq, Repr

/-- The joined per-bibcode record, spec §3 (RowViewRecord); only the fields
the metrics engine consumes are carried. -/
structure RowViewRecord where
  id : Int
  bibcode : String
  authors : List String
  refereed : Bool
  citations : List String
  reference : List String
  reads : List Int
  downloads : List Int
  deriving DecidableEq, Repr

/-- One per-citation weight record, spec §4.3: "append to rn_citation_data:
\x7bbibcode: bibcode_c, pubyear, cityear, auth_norm, ref_norm\x7d". -/
structure RNCitationDatum where
  bibcode : String
  pubyear : Nat
  cityear : Nat
  auth_norm : ℚ
  ref_norm : ℚ
  deriving DecidableEq, Repr

/-- The derived metrics record, spec §3 (MetricsRecord). -/
structure MetricsRecord where
  bibcode : String
  id : Int
  refereed : Bool
  citation_num : Nat
  refereed_citation_num : Nat
  reference_num : Nat
  author_num : Nat
  citations : List String
  refereed_citations : List String
  rn_citation_data : List RNCitationDatum
  rn_citations : ℚ
  an_citations : ℚ
  an_refereed_citations : ℚ
  reads : List Int
  downloads : List Int
  deriving DecidableEq, Repr

/-- Modelled from the spec, §4.3 citation loop: for each citing bibcode `c`
in list order, fetch its record; a dangling reference (no record) "is skipped
from rn_citation_data" (§4.3, Failure). Each kept entry records
`ref_norm = auth_norm / reference_num_c`, the cited record's `pubyear` and the
citing record's `cityear`. -/
def citationData (lookup : String → Option CitedRecord) (auth_norm : ℚ)
    (pubyear : Nat) : List String → List RNCitationDatum
  | [] => []
  | c :: rest =>
    match lookup c with
    | none => citationData lookup auth_norm pubyear rest
    | some info =>
      { bibcode := info.bibcode
        pubyear := pubyear
        cityear := publicationYear info.bibcode
        auth_norm := auth_norm
        ref_norm := auth_norm / (info.reference_num : ℚ) } ::
        citationData lookup auth_norm pubyear rest

/-- Modelled from the spec, §4.3 citation loop: "if refereed_c is true, append
bibcode_c to refereed_citations (preserving original citation-list order)";
dangling references are skipped (§4.3, Failure). -/
def refereedCitations (lookup : String → Option CitedRecord) :
    List String → List String
  | [] => []
  | c :: rest =>
    match lookup c with
    | none => refereedCitations lookup rest
    | some info =>
      if info.refereed then info.bibcode :: refereedCitations lookup rest
      else refereedCitations lookup rest

/-- Modelled from the spec, §4.3: the running accumulation
"rn_citations = Σ ref_norm_i over all citations", accumulated per citing
bibcode during the loop (dangling references contribute nothing). -/
def rnCitationSum (lookup : String → Option CitedRecord) (auth_norm : ℚ) :
    List String → ℚ
  | [] => 0
  | c :: rest =>
    (match lookup c with
     | none => 0
     | some info => auth_norm / (info.reference_num : ℚ)) +
      rnCitationSum lookup auth_norm rest

/-- Modelled from the spec: the whole of §4.3 (MetricsEngine). Computes one
`MetricsRecord` from one `RowViewRecord` plus lookup access to the records of
its citing bibcodes. `currentYear` parametrises the wall-clock year. -/
def row_view_to_metrics (r : RowViewRecord)
    (lookup : String → Option CitedRecord) (currentYear : Int) : MetricsRecord :=
  let author_num := r.authors.length
  let auth_norm : ℚ := 1 / (author_num : ℚ)
  let pubyear := publicationYear r.bibcode
  let refCits := refereedCitations lookup r.citations
  let a : ℚ := (age currentYear r.bibcode : ℚ)
  { bibcode := r.bibcode
    id := r.id
    refereed := r.refereed
    citation_num := r.citations.length
    refereed_citation_num := refCits.length
    reference_num := r.reference.length
    author_num := author_num
    citations := r.citations
    refereed_citations := refCits
    rn_citation_data := citationData lookup auth_norm pubyear r.citations
    rn_citations := rnCitationSum lookup auth_norm r.citations
    an_citations := (r.citations.length : ℚ) / a
    an_refereed_citations := (refCits.length : ℚ) / a
    reads := r.reads
    downloads := r.downloads }

/-! ## `run.py`: Python runtime errors and name scoping

The forwarding functions and several `main` branches of `src/run.py` contain
statements whose Python semantics is to raise; the embedding makes those
outcomes explicit values. -/

/-- The Python exceptions that statements of `src/run.py` can raise before any
store or queue operation happens. -/
inductive PyError where
  | unboundLocal (name : String)
  | attributeError (name : String)
  | typeError (callee : String)
  | keyError (key : String)
  deriving DecidableEq, Repr

/-- Python local-name read semantics: a name assigned anywhere in a function
body is local to the whole body, so reading it before its first assignment
raises `UnboundLocalError`. `assigned` lists the names the body assigns,
`bound` those assigned before the read. -/
def pyReadLocal (assigned bound : List String) (n : String) :
    Except PyError Unit :=
  if n ∈ assigned ∧ n ∉ bound then .error (.unboundLocal n) else .ok ()

/-- The names `nonbib_to_master_pipeline` (run.py lines 48-70) assigns in its
body, making each local to the whole body. -/
def nonbibToMasterLocals : List String :=
  ["nonbib", "connection", "s", "results", "tmp", "current_row", "rec", "recs"]

/-- run.py lines 48-70. The first statement (line 50) is
`nonbib = nonbib.NonBib(schema)`: its right-hand side reads the name `nonbib`,
which this very assignment makes function-local, before any assignment to it,
so the body raises `UnboundLocalError` before reading a row or publishing a
message. The value on success would be the list of published queue batches;
that branch is unreachable, so the remainder of the body (lines 51-70) is
elided. -/
def nonbib_to_master_pipeline (schema : String) (batch_size : Nat) :
    Except PyError (List (List String)) := do
  let _ := schema
  let _ := batch_size
  pyReadLocal nonbibToMasterLocals [] "nonbib"
  pure []

/-- The names `nonbib_delta_to_master_pipeline` (run.py lines 74-100) assigns
in its body. -/
def nonbibDeltaToMasterLocals : List String :=
  ["nonbib", "connection", "delta_table", "s", "results", "tmp",
   "current_delta", "row", "rec", "recs"]

/-- run.py lines 74-100. The first statement (line 79) is
`nonbib = nonbib.NonBib(schema)`; as in `nonbib_to_master_pipeline`, the read
of the local `nonbib` precedes its assignment, so the body raises
`UnboundLocalError` first; the rest (lines 80-100) is unreachable and elided. -/
def nonbib_delta_to_master_pipeline (schema : String) (batch_size : Nat) :
    Except PyError (List (List String)) := do
  let _ := schema
  let _ := batch_size
  pyReadLocal nonbibDeltaToMasterLocals [] "nonbib"
  pure []

/-- The names `metrics_delta_to_master_pipeline` (run.py lines 131-159)
assigns in its body. -/
def metricsDeltaToMasterLocals : List String :=
  ["m", "nonbib", "connection", "delta_table", "s", "results", "tmp",
   "current_delta", "row", "rec", "recs"]

/-- run.py lines 131-159. Line 136 `m = metrics.Metrics(metrics_schema)` reads
only the module global `metrics` and binds the local `m`; line 137
`nonbib = nonbib.NonBib(nonbib_schema)` then reads the local `nonbib` before
its assignment, raising `UnboundLocalError` before any row is read or message
published; lines 138-159 are unreachable and elided. -/
def metrics_delta_to_master_pipeline (metrics_schema nonbib_schema : String)
    (batch_size : Nat) : Except PyError (List (List String)) := do
  let _ := metrics_schema
  let _ := nonbib_schema
  let _ := batch_size
  pyReadLocal metricsDeltaToMasterLocals ["m"] "nonbib"
  pure []

/-! ## `run.py`: `metrics_to_master_pipeline` (lines 103-127)

A metrics table row is a Python dict; it is modelled as an association list
from field name to value (polymorphic in the value type). The function pops
the key `id`, builds the outgoing record from the remaining fields, batches
records in `tmp`, publishes a full batch whenever `len(tmp) >= batch_size`,
and publishes the leftover as a final batch. -/

/-- A metrics table row (`dict(current_row)` in run.py line 111): field name to
value. -/
abbrev MetricsRow (α : Type) : Type := List (String × α)

/-- Python `dict.pop(k)` (run.py line 112): removes the key and returns the
remaining mapping; raises `KeyError` when the key is absent. -/
def dictPop {α : Type} (row : MetricsRow α) (k : String) :
    Except PyError (MetricsRow α) :=
  match row.lookup k with
  | some _ => .ok (row.filter (fun kv => kv.1 ≠ k))
  | none => .error (.keyError k)

/-- The loop of run.py lines 110-121 over the result rows: `msgs` are the
batches published so far, `tmp` the accumulator. Each row has `id` popped
(line 112), the record appended to `tmp` (line 115), and when
`len(tmp) >= batch_size` the batch is published and `tmp` reset
(lines 116-121). -/
def metricsLoop {α : Type} (batch_size : Nat) :
    List (MetricsRow α) → List (List (MetricsRow α)) → List (MetricsRow α) →
    Except PyError (List (List (MetricsRow α)) × List (MetricsRow α))
  | [], msgs, tmp => .ok (msgs, tmp)
  | row :: rest, msgs, tmp =>
    match dictPop row "id" with
    | .error e => .error e
    | .ok rec =>
      let tmp := tmp ++ [rec]
      if batch_size ≤ tmp.length then metricsLoop batch_size rest (msgs ++ [tmp]) []
      else metricsLoop batch_size rest msgs tmp

/-- run.py lines 103-127: iterate the metrics table rows, batch the outgoing
records, and publish the final partial batch when leftover records remain
(lines 123-127). The value is the list of published queue messages, each a
batch of records. -/
def metrics_to_master_pipeline {α : Type} (rows : List (MetricsRow α))
    (batch_size : Nat) : Except PyError (List (List (MetricsRow α))) :=
  match metricsLoop batch_size rows [] [] with
  | .error e => .error e
  | .ok (msgs, tmp) => .ok (if 0 < tmp.length then msgs ++ [tmp] else msgs)

/-! ## `run.py`: the command dispatch of `main` (lines 217-377)

`main` parses the arguments, opens the two database connections is, and then
runs one `elif` chain on `args.command`; the chain is modelled as a first-match
scan over guarded branches. Only the dispatch chain executes store or queue
operations; the connection preamble (lines 243-251) opens connections but runs
no statement against them. Each branch's store/queue operations are recorded
as `Effect`s; statements whose Python semantics is to raise yield a `PyError`
and cut the branch short. -/

/-- The parsed command-line arguments (run.py lines 218-236): an argparse
namespace with exactly these attributes. `batchSize` stands for
`int(args.batchSize)`. -/
structure Args where
  fileType : String
  rowViewSchemaName : String
  metricsSchemaName : String
  rowViewBaselineSchemaName : String
  batchSize : Int
  diagnose : Bool
  command : String
  deriving DecidableEq, Repr

/-- Python attribute access on the argparse namespace: the string-valued
attributes the parser defines are returned; any other name raises
`AttributeError` (as `args.rowViewSchemaNameg` does on run.py line 331). -/
def Args.getattrString (a : Args) : String → Except PyError String
  | "fileType" => .ok a.fileType
  | "rowViewSchemaName" => .ok a.rowViewSchemaName
  | "metricsSchemaName" => .ok a.metricsSchemaName
  | "rowViewBaselineSchemaName" => .ok a.rowViewBaselineSchemaName
  | "command" => .ok a.command
  | n => .error (.attributeError n)

/-- Python call-arity check: calling a function that accepts between
`minParams` and `maxParams` positional arguments with `supplied` of them
raises `TypeError` outside that range, before the body runs. -/
def pyCall (callee : String) (minParams maxParams supplied : Nat) :
    Except PyError Unit :=
  if minParams ≤ supplied ∧ supplied ≤ maxParams then .ok ()
  else .error (.typeError callee)

/-- One store or queue operation performed by a `main` branch, at the
granularity of the method and function calls in run.py. -/
inductive Effect where
  | diagnoseNonbib
  | diagnoseMetrics
  | createColumnTables (schema : String)
  | dropColumnTables (schema : String)
  | copyColumnFiles (schema : String)
  | createJoinedRows (schema : String)
  | createMetricsTable (schema : String)
  | dropMetricsTable (schema : String)
  | updateMetricsAll (rowViewSchema : String)
  | updateMetricsChanged (rowViewSchema : String)
  | renameSchema (schema baseline : String)
  | createDeltaRows (schema baseline : String)
  | buildNewBibcodes (schema baseline : String)
  | logDeltaReasons (schema baseline : String)
  | metricsToMaster (schema : String) (batchSize : Int)
  deriving DecidableEq, Repr

/-- What one `main` branch does: the store/queue operations it performs in
order, the lines it prints, and the Python error that aborted it, if any
(operations before the error stay recorded). -/
structure DispatchResult where
  effects : List Effect
  output : List String
  error : Option PyError
  deriving DecidableEq, Repr

/-- run.py lines 21-45 (`load_column_files`, invoked with its full argument
list): copy every column file into the schema's tables, then create the
joined row view (line 45). -/
def loadColumnFilesEffects (schema : String) : List Effect :=
  [.copyColumnFiles schema, .createJoinedRows schema]

/-- run.py lines 341-358, the `runPipelinesDelta` branch body. After dropping
the baseline tables, renaming the current schema, and recreating the column
tables, line 352 calls `load_column_files(config, sql_sync)` with 2 arguments;
`load_column_files` (line 21) requires 4 positional parameters, so the call
raises `TypeError` before the delta and metrics phases (lines 354-358). -/
def runPipelinesDeltaBody (a : Args) : DispatchResult :=
  let pre : List Effect :=
    [.dropColumnTables a.rowViewBaselineSchemaName,
     .renameSchema a.rowViewSchemaName a.rowViewBaselineSchemaName,
     .createColumnTables a.rowViewSchemaName]
  match pyCall "load_column_files" 4 4 2 with
  | .error e => ⟨pre, [], some e⟩
  | .ok _ =>
    ⟨pre ++ loadColumnFilesEffects a.rowViewSchemaName ++
      [.createDeltaRows a.rowViewSchemaName a.rowViewBaselineSchemaName,
       .logDeltaReasons a.rowViewSchemaName a.rowViewBaselineSchemaName,
       .updateMetricsChanged a.rowViewSchemaName], [], none⟩

/-- run.py lines 329-339, the `runPipelines` branch body. Its first statement
(line 331) reads `args.rowViewSchemaNameg`, an attribute the parser never
defines, so the branch raises `AttributeError` before any phase runs; on the
unreachable success path the chain of lines 332-339 would follow. -/
def runPipelinesBody (a : Args) : DispatchResult :=
  match a.getattrString "rowViewSchemaNameg" with
  | .error e => ⟨[], [], some e⟩
  | .ok s =>
    ⟨[.dropColumnTables s, .createColumnTables s] ++ loadColumnFilesEffects s ++
      [.dropMetricsTable a.metricsSchemaName,
       .createMetricsTable a.metricsSchemaName,
       .updateMetricsAll a.rowViewSchemaName], [], none⟩

/-- run.py line 361-362, the non-diagnostic `nonbibToMasterPipeline` branch:
`nonbib_to_master_pipeline` raises before doing anything (see its model). -/
def nonbibToMasterBody (a : Args) : DispatchResult :=
  match nonbib_to_master_pipeline a.rowViewSchemaName a.batchSize.toNat with
  | .error e => ⟨[], [], some e⟩
  | .ok _ => ⟨[], [], none⟩

/-- run.py lines 363-365, the `nonbibDeltaToMasterPipeline` branch: prints the
diagnose flag (line 364), then `nonbib_delta_to_master_pipeline` raises. -/
def nonbibDeltaToMasterBody (a : Args) : DispatchResult :=
  let line := "diagnose = " ++ " " ++ (if a.diagnose then "True" else "False")
  match nonbib_delta_to_master_pipeline a.rowViewSchemaName a.batchSize.toNat with
  | .error e => ⟨[], [line], some e⟩
  | .ok _ => ⟨[], [line], none⟩

/-- run.py lines 370-371, the `metricsDeltaToMasterPipeline` branch: it calls
`nonbib_delta_to_master_pipeline` with 3 positional arguments, but that
function (line 74) accepts at most 2, so the call raises `TypeError`. -/
def metricsDeltaToMasterBody : DispatchResult :=
  match pyCall "nonbib_delta_to_master_pipeline" 1 2 3 with
  | .error e => ⟨[], [], some e⟩
  | .ok _ => ⟨[], [], none⟩

/-- run.py lines 373-377, the final `else` of the chain: report the command
and the three schema-name arguments to the operator; no store or queue
operation. Python 2 `print a, b` separates the items with one space. -/
def unrecognizedReport (a : Args) : DispatchResult :=
  ⟨[],
   ["app.py: illegal command or missing argument, command = " ++ " " ++ a.command,
    "  row view schema name = " ++ " " ++ a.rowViewSchemaName,
    "  row view baseline schema name = " ++ " " ++ a.rowViewBaselineSchemaName,
    "  metrics schema name = " ++ " " ++ a.metricsSchemaName],
   none⟩

/-- The guarded branches of the `elif` chain of `main` (run.py lines 253-371),
in source order: each entry is the branch's guard (argparse string attributes
are truthy iff non-empty) and the branch body's result. -/
def mainBranches (a : Args) : List (Bool × DispatchResult) :=
  let r := a.rowViewSchemaName
  let m := a.metricsSchemaName
  let b := a.rowViewBaselineSchemaName
  [(a.command == "help" && a.diagnose,
      ⟨[.diagnoseNonbib, .diagnoseMetrics], [], none⟩),
   (a.command == "createIngestTables", ⟨[.createColumnTables r], [], none⟩),
   (a.command == "dropIngestTables", ⟨[.dropColumnTables r], [], none⟩),
   (a.command == "createJoinedRows", ⟨[.createJoinedRows r], [], none⟩),
   (a.command == "createMetricsTable" && m != "",
      ⟨[.createMetricsTable m], [], none⟩),
   (a.command == "dropMetricsTable" && m != "",
      ⟨[.dropMetricsTable m], [], none⟩),
   (a.command == "populateMetricsTable" && r != "" && m != "",
      ⟨[.updateMetricsAll r], [], none⟩),
   (a.command == "populateMetricsTableDelta" && r != "" && m != "",
      ⟨[.updateMetricsChanged r], [], none⟩),
   (a.command == "renameSchema" && r != "" && b != "",
      ⟨[.renameSchema r b], [], none⟩),
   (a.command == "createDeltaRows" && r != "" && b != "",
      ⟨[.createDeltaRows r b], [], none⟩),
   (a.command == "createNewBibcodes" && r != "" && b != "",
      ⟨[.buildNewBibcodes r b], [], none⟩),
   (a.command == "logDeltaReasons" && r != "" && b != "",
      ⟨[.logDeltaReasons r b], [], none⟩),
   (a.command == "runRowViewPipeline" && r != "",
      ⟨[.dropColumnTables r, .createColumnTables r] ++ loadColumnFilesEffects r,
       [], none⟩),
   (a.command == "runMetricsPipeline" && r != "" && m != "",
      ⟨[.dropMetricsTable m, .createMetricsTable m, .updateMetricsAll r],
       [], none⟩),
   (a.command == "runRowViewPipelineDelta" && r != "" && b != "",
      ⟨[.dropColumnTables r, .createColumnTables r] ++ loadColumnFilesEffects r ++
        [.createDeltaRows r b, .logDeltaReasons r b], [], none⟩),
   (a.command == "runMetricsPipelineDelta" && r != "" && m != "",
      ⟨[.updateMetricsChanged r], [], none⟩),
   (a.command == "runPipelines" && r != "" && m != "", runPipelinesBody a),
   (a.command == "runPipelinesDelta" && r != "" && m != "" && b != "",
      runPipelinesDeltaBody a),
   (a.command == "nonbibToMasterPipeline" && a.diagnose,
      ⟨[.diagnoseNonbib], [], none⟩),
   (a.command == "nonbibToMasterPipeline", nonbibToMasterBody a),
   (a.command == "nonbibDeltaToMasterPipeline", nonbibDeltaToMasterBody a),
   (a.command == "metricsToMasterPipeline" && a.diagnose,
      ⟨[.diagnoseMetrics], [], none⟩),
   (a.command == "metricsToMasterPipeline",
      ⟨[.metricsToMaster m a.batchSize], [], none⟩),
   (a.command == "metricsDeltaToMasterPipeline", metricsDeltaToMasterBody)]

/-- Does any branch guard of the `elif` chain accept the arguments? -/
def recognizedInvocation (a : Args) : Bool :=
  (mainBranches a).any (·.1)

/-- The command dispatch of `main` (run.py lines 253-377): the first branch
whose guard holds runs; when none does, the `else` report runs. -/
def mainDispatch (a : Args) : DispatchResult :=
  match (mainBranches a).find? (·.1) with
  | some p => p.2
  | none => unrecognizedReport a

/-! ## Supporting lemmas on the metrics engine -/

/-- When every looked-up citing record carries its own key as bibcode (the
row-view invariant), the refereed-citation list is the refereed-filter of the
citation list, hence order-preserving. -/
theorem refereedCitations_eq_filter (lookup : String → Option CitedRecord)
    (cs : List String)
    (hb : ∀ c ∈ cs, ((lookup c).map CitedRecord.bibcode).getD c = c) :
    refereedCitations lookup cs
      = cs.filter (fun c => ((lookup c).map CitedRecord.refereed).getD false) := by
  induction cs with
  | nil => simp [refereedCitations]
  | cons c rest ih =>
    have hrest : ∀ x ∈ rest, ((lookup x).map CitedRecord.bibcode).getD x = x :=
      fun x hx => hb x (List.mem_cons_of_mem _ hx)
    have hc := hb c (List.mem_cons_self _ _)
    cases hl : lookup c with
    | none => simp [refereedCitations, hl, ih hrest]
    | some info =>
      rw [hl] at hc
      simp only [Option.map_some', Option.getD_some] at hc
      by_cases hr : info.refereed
      · simp [refereedCitations, hl, hr, ih hrest, hc]
      · simp [refereedCitations, hl, hr, ih hrest]

/-- The running sum accumulated by the citation loop equals the sum of the
`ref_norm` fields of the emitted `rn_citation_data` entries. -/
theorem rnCitationSum_eq_sum (lookup : String → Option CitedRecord)
    (an : ℚ) (py : Nat) (cs : List String) :
    rnCitationSum lookup an cs
      = ((citationData lookup an py cs).map RNCitationDatum.ref_norm).sum := by
  induction cs with
  | nil => simp [rnCitationSum, citationData]
  | cons c rest ih =>
    cases hl : lookup c <;>
      simp [rnCitationSum, citationData, hl, ih]

/-- Every emitted `rn_citation_data` entry carries the loop's `auth_norm` and a
`ref_norm` of the form `auth_norm / reference_num` of some looked-up citing
record. -/
theorem citationData_mem (lookup : String → Option CitedRecord)
    (an : ℚ) (py : Nat) (cs : List String) (d : RNCitationDatum)
    (hd : d ∈ citationData lookup an py cs) :
    d.auth_norm = an ∧
      ∃ c ∈ cs, ∃ info, lookup c = some info ∧
        d.ref_norm = an / (info.reference_num : ℚ) := by
  induction cs with
  | nil => simp [citationData] at hd
  | cons c rest ih =>
    cases hl : lookup c with
    | none =>
      rw [citationData, hl] at hd
      obtain ⟨h1, c', hc', rest'⟩ := ih hd
      exact ⟨h1, c', List.mem_cons_of_mem _ hc', rest'⟩
    | some info =>
      rw [citationData, hl] at hd
      rcases List.mem_cons.mp hd with h | h
      · subst h
        exact ⟨rfl, c, List.mem_cons_self _ _, info, hl, rfl⟩
      · obtain ⟨h1, c', hc', rest'⟩ := ih h
        exact ⟨h1, c', List.mem_cons_of_mem _ hc', rest'⟩

/-! ## Claims C1-C4 (metrics engine, spec-modelled) -/

/-- C1: for every RowViewRecord whose citations list is empty, the
MetricsRecord produced by `row_view_to_metrics` has refereed_citation_num = 0,
rn_citations = 0, rn_citation_data empty, an_citations = 0 and
an_refereed_citations = 0. -/
theorem metrics_empty_citations (r : RowViewRecord)
    (lookup : String → Option CitedRecord) (y : Int) (h : r.citations = []) :
    (row_view_to_metrics r lookup y).refereed_citation_num = 0 ∧
    (row_view_to_metrics r lookup y).rn_citations = 0 ∧
    (row_view_to_metrics r lookup y).rn_citation_data = [] ∧
    (row_view_to_metrics r lookup y).an_citations = 0 ∧
    (row_view_to_metrics r lookup y).an_refereed_citations = 0 := by
  simp [row_view_to_metrics, h, refereedCitations, citationData, rnCitationSum]

/-- Witness for C1 at the no-citation fixture of the unit test. -/
theorem metrics_empty_citations_witness :
    ({ id := 11, bibcode := "1998PPGeo..22..553A", authors := ["Arnfield, A. L."],
       refereed := false, citations := [], reference := ["1997BoLMe..85..475M"],
       reads := [1, 2, 3, 4], downloads := [0, 1, 2, 3] } : RowViewRecord).citations
        = [] ∧
    ((row_view_to_metrics
        { id := 11, bibcode := "1998PPGeo..22..553A", authors := ["Arnfield, A. L."],
          refereed := false, citations := [], reference := ["1997BoLMe..85..475M"],
          reads := [1, 2, 3, 4], downloads := [0, 1, 2, 3] }
        (fun _ => none) 2026).refereed_citation_num = 0 ∧
      (row_view_to_metrics
        { id := 11, bibcode := "1998PPGeo..22..553A", authors := ["Arnfield, A. L."],
          refereed := false, citations := [], reference := ["1997BoLMe..85..475M"],
          reads := [1, 2, 3, 4], downloads := [0, 1, 2, 3] }
        (fun _ => none) 2026).rn_citations = 0 ∧
      (row_view_to_metrics
        { id := 11, bibcode := "1998PPGeo..22..553A", authors := ["Arnfield, A. L."],
          refereed := false, citations := [], reference := ["1997BoLMe..85..475M"],
          reads := [1, 2, 3, 4], downloads := [0, 1, 2, 3] }
        (fun _ => none) 2026).rn_citation_data = [] ∧
      (row_view_to_metrics
        { id := 11, bibcode := "1998PPGeo..22..553A", authors := ["Arnfield, A. L."],
          refereed := false, citations := [], reference := ["1997BoLMe..85..475M"],
          reads := [1, 2, 3, 4], downloads := [0, 1, 2, 3] }
        (fun _ => none) 2026).an_citations = 0 ∧
      (row_view_to_metrics
        { id := 11, bibcode := "1998PPGeo..22..553A", authors := ["Arnfield, A. L."],
          refereed := false, citations := [], reference := ["1997BoLMe..85..475M"],
          reads := [1, 2, 3, 4], downloads := [0, 1, 2, 3] }
        (fun _ => none) 2026).an_refereed_citations = 0) :=
  ⟨rfl, metrics_empty_citations _ (fun _ => none) 2026 rfl⟩

/-- C2: over any lookup satisfying the row-view invariant (a looked-up citing
record's bibcode is its key), refereed_citations contains exactly the citing
bibcodes whose own record has refereed = true, in the relative order of the
citations list, and refereed_citation_num is its length. -/
theorem metrics_refereed_citations (r : RowViewRecord)
    (lookup : String → Option CitedRecord) (y : Int)
    (hb : ∀ c ∈ r.citations, ((lookup c).map CitedRecord.bibcode).getD c = c) :
    (row_view_to_metrics r lookup y).refereed_citations
      = r.citations.filter
          (fun c => ((lookup c).map CitedRecord.refereed).getD false) ∧
    (row_view_to_metrics r lookup y).refereed_citation_num
      = (row_view_to_metrics r lookup y).refereed_citations.length := by
  refine ⟨?_, rfl⟩
  simpa [row_view_to_metrics] using refereedCitations_eq_filter lookup r.citations hb

/-- The second fixture of the unit test, with its citation list. -/
def t2rec : RowViewRecord :=
  { id := 3
    bibcode := "1997BoLMe..85..475M"
    refereed := true
    authors := ["Meesters, A. G. C. A.", "Bink, N. J.", "Henneken, E. A. C.",
                "Vugts, H. F.", "Cannemeijer, F."]
    citations := ["2006QJRMS.132..779R", "2008Sci...320.1622D", "1998PPGeo..22..553A"]
    reference := ["1994BoLMe..71..393V", "1994GPC.....9...53M", "1997BoLMe..85...81M"]
    reads := []
    downloads := [] }

/-- A row-view lookup for `t2rec`'s citing records: each citing bibcode maps to
a record carrying that bibcode, mimicking the refereed flags of the unit-test
mock (true, false, true) with reference_num 1 each. -/
def t2lookup : String → Option CitedRecord := fun c =>
  (([("2006QJRMS.132..779R", ⟨true, 1, "2006QJRMS.132..779R"⟩),
     ("2008Sci...320.1622D", ⟨false, 1, "2008Sci...320.1622D"⟩),
     ("1998PPGeo..22..553A", ⟨true, 1, "1998PPGeo..22..553A"⟩)] :
    List (String × CitedRecord)).lookup c)

/-- Witness for C2 at the cited fixture of the unit test. -/
theorem metrics_refereed_citations_witness :
    (∀ c ∈ t2rec.citations,
        ((t2lookup c).map CitedRecord.bibcode).getD c = c) ∧
    ((row_view_to_metrics t2rec t2lookup 2026).refereed_citations
        = t2rec.citations.filter
            (fun c => ((t2lookup c).map CitedRecord.refereed).getD false) ∧
      (row_view_to_metrics t2rec t2lookup 2026).refereed_citation_num
        = (row_view_to_metrics t2rec t2lookup 2026).refereed_citations.length) :=
  ⟨by decide, metrics_refereed_citations t2rec t2lookup 2026 (by decide)⟩

/-- C3: rn_citations is the sum of the ref_norm fields of rn_citation_data
(exactly, the model working over ℚ), and every entry's ref_norm is the record's
auth_norm = 1/author_num divided by the citing record's reference_num. -/
theorem metrics_rn_citations_sum (r : RowViewRecord)
    (lookup : String → Option CitedRecord) (y : Int) :
    (row_view_to_metrics r lookup y).rn_citations
      = ((row_view_to_metrics r lookup y).rn_citation_data.map
          RNCitationDatum.ref_norm).sum ∧
    ∀ d ∈ (row_view_to_metrics r lookup y).rn_citation_data,
      d.auth_norm = 1 / ((row_view_to_metrics r lookup y).author_num : ℚ) ∧
      ∃ c ∈ r.citations, ∃ info, lookup c = some info ∧
        d.ref_norm = d.auth_norm / (info.reference_num : ℚ) := by
  constructor
  · simpa [row_view_to_metrics] using
      rnCitationSum_eq_sum lookup (1 / (r.authors.length : ℚ))
        (publicationYear r.bibcode) r.citations
  · intro d hd
    simp only [row_view_to_metrics] at hd ⊢
    obtain ⟨h1, c, hc, info, hinfo, h2⟩ := citationData_mem _ _ _ _ _ hd
    exact ⟨h1, c, hc, info, hinfo, by rw [h1]; exact h2⟩

/-- C4: an_citations and an_refereed_citations are the citation counts divided
by age = max(1, current_year − year(first four bibcode characters) + 1). -/
theorem metrics_age_normalized (r : RowViewRecord)
    (lookup : String → Option CitedRecord) (y : Int) :
    (row_view_to_metrics r lookup y).an_citations
      = ((row_view_to_metrics r lookup y).citation_num : ℚ)
        / ((max 1 (y - (((r.bibcode.take 4).toNat?).getD 0 : Int) + 1) : Int) : ℚ) ∧
    (row_view_to_metrics r lookup y).an_refereed_citations
      = ((row_view_to_metrics r lookup y).refereed_citation_num : ℚ)
        / ((max 1 (y - (((r.bibcode.take 4).toNat?).getD 0 : Int) + 1) : Int) : ℚ) := by
  constructor <;> simp [row_view_to_metrics, age, publicationYear]

/-! ## Claims C5 and C9 (shadowed `nonbib` local) -/

/-- C9: each of the three functions that assign a local named `nonbib` raises
`UnboundLocalError` at its first use of that name, so none of them ever reads
a row or publishes a queue message (an error value carries no published
batches). -/
theorem master_pipeline_unbound_local (schema ms ns : String) (bs bs' : Nat) :
    nonbib_to_master_pipeline schema bs = .error (.unboundLocal "nonbib") ∧
    nonbib_delta_to_master_pipeline schema bs = .error (.unboundLocal "nonbib") ∧
    metrics_delta_to_master_pipeline ms ns bs' = .error (.unboundLocal "nonbib") := by
  refine ⟨?_, ?_, ?_⟩ <;> rfl

/-- C5 (failing side): at the concrete schema and batch size of the spec's
defaults, `nonbib_to_master_pipeline` raises `UnboundLocalError` instead of
grouping records into batches and publishing them. -/
theorem nonbib_to_master_pipeline_raises :
    nonbib_to_master_pipeline "nonbib" 1 = .error (.unboundLocal "nonbib") := by
  rfl

/-! ## Batching lemmas for `metrics_to_master_pipeline` -/

/-- Loop invariant: starting from an accumulator shorter than the batch size,
a successful run of the loop appends only exact-size batches to the published
list and leaves an accumulator shorter than the batch size. -/
theorem metricsLoop_ok {α : Type} (b : Nat) (rows : List (MetricsRow α)) :
    ∀ msgs tmp msgs' tmp', tmp.length < b →
      metricsLoop b rows msgs tmp = .ok (msgs', tmp') →
      (∃ new, msgs' = msgs ++ new ∧ ∀ m ∈ new, m.length = b) ∧
        tmp'.length < b := by
  induction rows with
  | nil =>
    intro msgs tmp msgs' tmp' hlt h
    simp only [metricsLoop, Except.ok.injEq, Prod.mk.injEq] at h
    obtain ⟨h1, h2⟩ := h
    subst h1; subst h2
    exact ⟨⟨[], by simp, by simp⟩, hlt⟩
  | cons row rest ih =>
    intro msgs tmp msgs' tmp' hlt h
    rw [metricsLoop] at h
    cases hpop : dictPop row "id" with
    | error e => rw [hpop] at h; exact absurd h (by simp)
    | ok rec =>
      rw [hpop] at h
      simp only at h
      by_cases hfull : b ≤ (tmp ++ [rec]).length
      · rw [if_pos hfull] at h
        have hlen : (tmp ++ [rec]).length = b := by
          simp only [List.length_append, List.length_singleton] at hfull ⊢
          omega
        have hb : 1 ≤ b := by omega
        obtain ⟨⟨new, hnew, hall⟩, hlt'⟩ :=
          ih (msgs ++ [tmp ++ [rec]]) [] msgs' tmp' (by simpa using hb) h
        refine ⟨⟨(tmp ++ [rec]) :: new, by simp [hnew], ?_⟩, hlt'⟩
        intro m hm
        rcases List.mem_cons.mp hm with hm | hm
        · subst hm; exact hlen
        · exact hall m hm
      · rw [if_neg hfull] at h
        have hlt2 : (tmp ++ [rec]).length < b := by omega
        exact ih msgs (tmp ++ [rec]) msgs' tmp' hlt2 h

/-- A successful run of the loop flattens to the id-stripped records of the
rows, appended after the flattening of what was already accumulated. -/
theorem metricsLoop_join {α : Type} (b : Nat) (rows : List (MetricsRow α)) :
    ∀ msgs tmp msgs' tmp',
      metricsLoop b rows msgs tmp = .ok (msgs', tmp') →
      msgs'.flatten ++ tmp'
        = msgs.flatten ++ tmp ++
            rows.map (fun row => row.filter (fun kv => kv.1 ≠ "id")) := by
  induction rows with
  | nil =>
    intro msgs tmp msgs' tmp' h
    simp only [metricsLoop, Except.ok.injEq, Prod.mk.injEq] at h
    obtain ⟨h1, h2⟩ := h
    subst h1; subst h2
    simp
  | cons row rest ih =>
    intro msgs tmp msgs' tmp' h
    rw [metricsLoop] at h
    cases hpop : dictPop row "id" with
    | error e => rw [hpop] at h; exact absurd h (by simp)
    | ok rec =>
      rw [hpop] at h
      simp only at h
      have hrec : rec = row.filter (fun kv => kv.1 ≠ "id") := by
        rw [dictPop] at hpop
        cases hlk : row.lookup "id" with
        | none => rw [hlk] at hpop; exact absurd hpop (by simp)
        | some v =>
          rw [hlk] at hpop
          simpa using hpop.symm
      by_cases hfull : b ≤ (tmp ++ [rec]).length
      · rw [if_pos hfull] at h
        have := ih (msgs ++ [tmp ++ [rec]]) [] msgs' tmp' h
        simp only [List.flatten_append, List.flatten, List.map_cons] at this ⊢
        simp only [this, hrec]
        simp [List.append_assoc]
      · rw [if_neg hfull] at h
        have := ih msgs (tmp ++ [rec]) msgs' tmp' h
        simp only [this, hrec, List.map_cons]
        simp [List.append_assoc]

/-- A successful full run: the flattening of the published messages is the
id-stripped row sequence, in order. -/
theorem metrics_to_master_join {α : Type} (rows : List (MetricsRow α))
    (b : Nat) (msgs : List (List (MetricsRow α)))
    (h : metrics_to_master_pipeline rows b = .ok msgs) :
    msgs.flatten = rows.map (fun row => row.filter (fun kv => kv.1 ≠ "id")) := by
  rw [metrics_to_master_pipeline] at h
  cases hl : metricsLoop b rows [] [] with
  | error e => rw [hl] at h; exact absurd h (by simp)
  | ok p =>
    obtain ⟨msgs₀, tmp'⟩ := p
    rw [hl] at h
    simp only [Except.ok.injEq] at h
    have hj := metricsLoop_join b rows [] [] msgs₀ tmp' hl
    simp only [List.flatten_nil, List.nil_append] at hj
    by_cases hne : 0 < tmp'.length
    · rw [if_pos hne] at h
      subst h
      simpa [List.flatten_append] using hj
    · rw [if_neg hne] at h
      subst h
      have : tmp' = [] := List.length_eq_zero.mp (by omega)
      simpa [this] using hj

/-- Looking up the removed key in the id-stripped row yields nothing. -/
theorem lookup_filter_id_none {α : Type} (row : List (String × α)) :
    (row.filter (fun kv => kv.1 ≠ "id")).lookup "id" = none := by
  induction row with
  | nil => rfl
  | cons kv rest ih =>
    obtain ⟨k1, v1⟩ := kv
    rw [List.filter_cons]
    by_cases hk : k1 = "id"
    · rw [if_neg (by simp [hk])]
      exact ih
    · rw [if_pos (by simp [hk])]
      have hbeq : ("id" == k1) = false := by
        rw [beq_eq_false_iff_ne]
        exact fun hh => hk hh.symm
      simp only [List.lookup, hbeq]
      exact ih

/-- Looking up any other key in the id-stripped row is unchanged. -/
theorem lookup_filter_id_other {α : Type} (row : List (String × α))
    (k : String) (hk : k ≠ "id") :
    (row.filter (fun kv => kv.1 ≠ "id")).lookup k = row.lookup k := by
  induction row with
  | nil => rfl
  | cons kv rest ih =>
    obtain ⟨k1, v1⟩ := kv
    rw [List.filter_cons]
    by_cases h1 : k1 = "id"
    · rw [if_neg (by simp [h1])]
      have hbeq : (k == k1) = false := by
        rw [beq_eq_false_iff_ne]
        rw [h1]
        exact hk
      rw [ih]
      simp only [List.lookup, hbeq]
    · rw [if_pos (by simp [h1])]
      simp only [List.lookup]
      cases hkk : (k == k1) with
      | true => rfl
      | false => exact ih

/-! ## Claims C10 and C6 (metrics forwarding) -/

/-- C10: with a batch size of at least 1, every queue message published by
metrics_to_master_pipeline holds between 1 and batch_size records, every
message except possibly the final one holds exactly batch_size records, and no
empty batch is ever published. -/
theorem metrics_batch_bounds {α : Type} (rows : List (MetricsRow α)) (b : Nat)
    (msgs : List (List (MetricsRow α))) (hb : 1 ≤ b)
    (h : metrics_to_master_pipeline rows b = .ok msgs) :
    (∀ m ∈ msgs, 1 ≤ m.length ∧ m.length ≤ b) ∧
    ∀ m ∈ msgs.dropLast, m.length = b := by
  rw [metrics_to_master_pipeline] at h
  cases hl : metricsLoop b rows [] [] with
  | error e => rw [hl] at h; exact absurd h (by simp)
  | ok p =>
    obtain ⟨msgs₀, tmp'⟩ := p
    rw [hl] at h
    simp only [Except.ok.injEq] at h
    obtain ⟨⟨new, hnew, hall⟩, hlt⟩ :=
      metricsLoop_ok b rows [] [] msgs₀ tmp'
        (by simp only [List.length_nil]; omega) hl
    simp only [List.nil_append] at hnew
    subst hnew
    by_cases hne : 0 < tmp'.length
    · rw [if_pos hne] at h
      subst h
      constructor
      · intro m hm
        rcases List.mem_append.mp hm with hm | hm
        · have := hall m hm; omega
        · have hme : m = tmp' := List.mem_singleton.mp hm
          subst hme; omega
      · intro m hm
        have hdl : (msgs₀ ++ [tmp']).dropLast = msgs₀ := by simp
        rw [hdl] at hm
        exact hall m hm
    · rw [if_neg hne] at h
      subst h
      refine ⟨fun m hm => ?_, fun m hm => hall m ((List.dropLast_sublist _).subset hm)⟩
      have := hall m hm; omega

/-- Witness data for C10: three metrics rows, batch size 2. -/
def batchRowsW : List (MetricsRow Nat) :=
  [[("id", 1), ("reads", 2)], [("id", 3)], [("id", 5), ("bibcode", 7)]]

/-- The messages metrics_to_master_pipeline publishes for `batchRowsW`. -/
def batchMsgsW : List (List (MetricsRow Nat)) :=
  [[[("reads", 2)], []], [[("bibcode", 7)]]]

/-- Witness for C10 at `batchRowsW` with batch size 2. -/
theorem metrics_batch_bounds_witness :
    1 ≤ 2 ∧
    metrics_to_master_pipeline batchRowsW 2 = .ok batchMsgsW ∧
    ((∀ m ∈ batchMsgsW, 1 ≤ m.length ∧ m.length ≤ 2) ∧
      ∀ m ∈ batchMsgsW.dropLast, m.length = 2) :=
  ⟨by decide, by rfl,
   metrics_batch_bounds batchRowsW 2 batchMsgsW (by decide) (by rfl)⟩

/-- C6: in metrics_to_master_pipeline, the records inside the published
messages are, in order, the table rows with the id field removed; the id key
is absent from each forwarded record and every other field is passed through
unchanged. -/
theorem metrics_id_dropped {α : Type} (rows : List (MetricsRow α)) (b : Nat)
    (msgs : List (List (MetricsRow α)))
    (h : metrics_to_master_pipeline rows b = .ok msgs) :
    msgs.flatten = rows.map (fun row => row.filter (fun kv => kv.1 ≠ "id")) ∧
    ∀ row ∈ rows,
      (row.filter (fun kv => kv.1 ≠ "id")).lookup "id" = none ∧
      ∀ k, k ≠ "id" →
        (row.filter (fun kv => kv.1 ≠ "id")).lookup k = row.lookup k :=
  ⟨metrics_to_master_join rows b msgs h,
   fun row _ =>
     ⟨lookup_filter_id_none row, fun k hk => lookup_filter_id_other row k hk⟩⟩

/-- Witness data for C6: one metrics row carrying an id and two other fields. -/
def idRowsW : List (MetricsRow Nat) :=
  [[("id", 1), ("bibcode", 9), ("citation_num", 4)]]

/-- The single message metrics_to_master_pipeline publishes for `idRowsW`. -/
def idMsgsW : List (List (MetricsRow Nat)) :=
  [[[("bibcode", 9), ("citation_num", 4)]]]

/-- Witness for C6 at `idRowsW` with batch size 1. -/
theorem metrics_id_dropped_witness :
    metrics_to_master_pipeline idRowsW 1 = .ok idMsgsW ∧
    (idMsgsW.flatten
        = idRowsW.map (fun row => row.filter (fun kv => kv.1 ≠ "id")) ∧
      ∀ row ∈ idRowsW,
        (row.filter (fun kv => kv.1 ≠ "id")).lookup "id" = none ∧
        ∀ k, k ≠ "id" →
          (row.filter (fun kv => kv.1 ≠ "id")).lookup k = row.lookup k) :=
  ⟨by rfl, metrics_id_dropped idRowsW 1 idMsgsW (by rfl)⟩

/-! ## Claims C7 and C8 (the dispatch of `main`) -/

/-- C7: when no branch guard of the `elif` chain accepts the arguments
(unrecognized command, or a recognized command with a required schema argument
empty), the dispatch performs no store or queue operation, raises nothing, and
prints the offending command and schema-name argument values. -/
theorem unrecognized_invocation_reports (a : Args)
    (h : recognizedInvocation a = false) :
    (mainDispatch a).effects = [] ∧
    (mainDispatch a).error = none ∧
    (mainDispatch a).output =
      ["app.py: illegal command or missing argument, command = " ++ " " ++ a.command,
       "  row view schema name = " ++ " " ++ a.rowViewSchemaName,
       "  row view baseline schema name = " ++ " " ++ a.rowViewBaselineSchemaName,
       "  metrics schema name = " ++ " " ++ a.metricsSchemaName] := by
  have hfind : (mainBranches a).find? (·.1) = none := by
    rw [List.find?_eq_none]
    intro x hx hpx
    have hany : (mainBranches a).any (·.1) = true :=
      List.any_eq_true.mpr ⟨x, hx, hpx⟩
    rw [recognizedInvocation, hany] at h
    exact absurd h (by simp)
  rw [mainDispatch, hfind]
  exact ⟨rfl, rfl, rfl⟩

/-- Witness for C7: the command "ingest" is listed in the help text but no
branch of the chain handles it. -/
theorem unrecognized_invocation_reports_witness :
    recognizedInvocation
      { fileType := "all", rowViewSchemaName := "nonbib",
        metricsSchemaName := "metrics",
        rowViewBaselineSchemaName := "nonbibstaging",
        batchSize := 1, diagnose := false, command := "ingest" } = false ∧
    ((mainDispatch
        { fileType := "all", rowViewSchemaName := "nonbib",
          metricsSchemaName := "metrics",
          rowViewBaselineSchemaName := "nonbibstaging",
          batchSize := 1, diagnose := false, command := "ingest" }).effects = [] ∧
      (mainDispatch
        { fileType := "all", rowViewSchemaName := "nonbib",
          metricsSchemaName := "metrics",
          rowViewBaselineSchemaName := "nonbibstaging",
          batchSize := 1, diagnose := false, command := "ingest" }).error = none ∧
      (mainDispatch
        { fileType := "all", rowViewSchemaName := "nonbib",
          metricsSchemaName := "metrics",
          rowViewBaselineSchemaName := "nonbibstaging",
          batchSize := 1, diagnose := false, command := "ingest" }).output =
        ["app.py: illegal command or missing argument, command = " ++ " " ++ "ingest",
         "  row view schema name = " ++ " " ++ "nonbib",
         "  row view baseline schema name = " ++ " " ++ "nonbibstaging",
         "  metrics schema name = " ++ " " ++ "metrics"]) :=
  ⟨by rfl,
   unrecognized_invocation_reports
     { fileType := "all", rowViewSchemaName := "nonbib",
       metricsSchemaName := "metrics",
       rowViewBaselineSchemaName := "nonbibstaging",
       batchSize := 1, diagnose := false, command := "ingest" } (by rfl)⟩

/-- C8 (code bug): at the default schema arguments, the runPipelines branch
raises AttributeError at its very first statement (the misspelt
args.rowViewSchemaNameg, run.py line 331) before any phase runs, and the
runPipelinesDelta branch raises TypeError at the 2-argument call of the
4-parameter load_column_files (line 352), so neither command ever reaches the
joined-row, delta or metrics phases. -/
theorem run_pipelines_branches_crash :
    mainDispatch
      { fileType := "all", rowViewSchemaName := "nonbib",
        metricsSchemaName := "metrics",
        rowViewBaselineSchemaName := "nonbibstaging",
        batchSize := 1, diagnose := false, command := "runPipelines" }
      = ⟨[], [], some (.attributeError "rowViewSchemaNameg")⟩ ∧
    mainDispatch
      { fileType := "all", rowViewSchemaName := "nonbib",
        metricsSchemaName := "metrics",
        rowViewBaselineSchemaName := "nonbibstaging",
        batchSize := 1, diagnose := false, command := "runPipelinesDelta" }
      = ⟨[.dropColumnTables "nonbibstaging",
          .renameSchema "nonbib" "nonbibstaging",
          .createColumnTables "nonbib"], [],
         some (.typeError "load_column_files")⟩ :=
  ⟨rfl, rfl⟩

end AdsDataSqlSync
